import Mathlib

/-!
# EdgeNet — verification of the cloud API and dashboard control paths

Shallow embedding of the EdgeNet repository (TypeScript) in Lean 4:

* `receiveTelemetry` — POST /api/telemetry (backend/src/controllers/telemetryController.ts):
  upserts a device-state row per posted device and appends a telemetry_data row;
* `getDeviceByMac` — GET /api/devices/:mac (backend/src/controllers/devicesController.ts);
* `getDeviceStats` / `getNetworkOverview` — the two aggregate-statistics endpoints;
* `hourlyPatterns` — GET /api/statistics/hourly-patterns (backend/src/routes/statistics.ts);
* `buildPortSettings` — the dashboard's QoS save (frontend BandwidthControl.tsx);
* the inventory of dashboard-originated HTTP calls, for the data-flow direction property.

JavaScript machine numbers are modelled exactly: the byte counters and timestamps
involved are integers far below 2^53, where JS `number` arithmetic is exact, so
`Int`/`Nat` (and `Rat` for the divisions the API performs) are faithful.
Database calls are modelled as pure updates of an explicit store; their possible
failures (Supabase errors, which the code branches on) are injected through an
explicit per-device outcome oracle.
-/

namespace EdgeNet

/-- A JS `Date` value as the backend uses it: its epoch-milliseconds value
(`getTime`, which also orders the ISO strings the code compares), its
`getDay()` (0 = Sunday … 6 = Saturday) and its `getHours()` (0‥23). -/
structure Timestamp where
  time : Int
  day : Fin 7
  hours : Fin 24
deriving DecidableEq, Repr

/-- A value the agent may supply for `rx_bytes` / `tx_bytes`: a JSON string, a
JSON number (the integral case — byte counters; below 2^53 JS numbers are exact
and `parseInt` returns the number itself), or absent (`undefined`). -/
inductive BytesVal where
  | str (s : String)
  | num (n : Int)
  | absent
deriving DecidableEq, Repr

/-- Numeric value of a list of decimal digit characters, most significant first
(JS `parseInt` applied to a string consisting only of digits). -/
def natOfDigits (l : List Char) : Nat :=
  l.foldl (fun a c => a * 10 + (c.toNat - 48)) 0

/-- `parseBytes` from telemetryController.ts:
string input: strip every non-digit character, `parseInt` the rest, `|| 0`;
other input: `parseInt(val) || 0` (for an integral JS number this is the number
itself, and for `undefined` it is `NaN`, hence `0`). -/
def parseBytes : BytesVal → Int
  | .str s =>
    let ds := s.data.filter Char.isDigit
    if ds.isEmpty then 0 else (natOfDigits ds : Int)
  | .num n => n
  | .absent => 0

/-- The number formed by the decimal digits of a string read left to right,
ignoring every other character (the spec's description of the counter mapping). -/
def digitConcat (s : String) : Nat :=
  s.data.foldl (fun a c => if c.isDigit then a * 10 + (c.toNat - 48) else a) 0

/-- One element of the `devices` array posted by the agent, with the fields the
backend reads from it. `Option` marks fields the code guards with `||`
(absent ⇒ JS `undefined`). -/
structure DeviceInput where
  mac : String
  hostname : String
  ip : String
  band : String
  signal_strength : Option Int
  ssid : String
  wireless_mode : String
  last_tx_rate : String
  rx_bytes : BytesVal
  tx_bytes : BytesVal
  online_minutes : Option Nat
  power_saving : Option Bool
  connection_time : Option Nat
deriving DecidableEq, Repr

/-- A row of the `devices` table, with exactly the columns the ingest path
writes (plus the generated `id`). -/
structure DeviceRow where
  id : Nat
  mac_address : String
  hostname : String
  ip_address : String
  band : String
  signal_strength : Option Int
  connection_status : String
  last_seen_at : Timestamp
  user_id : String
  ssid : String
  wireless_mode : String
  last_tx_rate : String
  rx_bytes_total : Int
  tx_bytes_total : Int
  online_minutes : Nat
  power_saving : Bool
deriving DecidableEq, Repr

/-- A row of the `telemetry_data` table as the ingest path inserts it. -/
structure TelemetryRow where
  device_id : Nat
  user_id : String
  timestamp : Timestamp
  rx_bytes : Int
  tx_bytes : Int
  signal_strength : Option Int
  connection_time : Nat
deriving DecidableEq, Repr

/-- The relational store: the two tables the telemetry path touches, plus the
id sequence backing the `devices.id` column. -/
structure DB where
  nextId : Nat
  devices : List DeviceRow
  telemetry : List TelemetryRow
deriving DecidableEq, Repr

/-- The record the upsert writes for one posted device (telemetryController.ts,
the object literal passed to `.upsert`): `connection_status` is the constant
string `online`, `last_seen_at` is the request-level timestamp. -/
def mkDeviceRow (id : Nat) (ts : Timestamp) (uid : String) (d : DeviceInput) : DeviceRow where
  id := id
  mac_address := d.mac
  hostname := d.hostname
  ip_address := d.ip
  band := d.band
  signal_strength := d.signal_strength
  connection_status := "online"
  last_seen_at := ts
  user_id := uid
  ssid := d.ssid
  wireless_mode := d.wireless_mode
  last_tx_rate := d.last_tx_rate
  rx_bytes_total := parseBytes d.rx_bytes
  tx_bytes_total := parseBytes d.tx_bytes
  online_minutes := d.online_minutes.getD 0
  power_saving := d.power_saving.getD false

/-- `upsert … onConflict: mac_address, ignoreDuplicates: false`: if a row with
this `mac_address` exists it is overwritten in place (keeping its `id`),
otherwise a fresh row is appended; `.select(id).single()` returns the row id. -/
def upsertDevice (db : DB) (ts : Timestamp) (uid : String) (d : DeviceInput) : DB × Nat :=
  match db.devices.find? (fun r => r.mac_address == d.mac) with
  | some existing =>
    ({ db with
        devices := db.devices.map
          (fun r => if r.mac_address == d.mac then mkDeviceRow r.id ts uid d else r) },
      existing.id)
  | none =>
    ({ db with
        nextId := db.nextId + 1
        devices := db.devices ++ [mkDeviceRow db.nextId ts uid d] },
      db.nextId)

/-- Outcome of the database calls for one device of the request, the failure
modes the per-device code branches on:
* `ok` — both the device upsert and the telemetry insert succeed;
* `fail` — the device upsert fails (`deviceError`, missing `deviceData`, or a
  thrown error caught by the per-device `catch`): nothing is written, `continue`;
* `telFail` — the upsert succeeds but the telemetry insert errors: the error is
  only logged, the device still counts as stored. -/
inductive Outcome where
  | ok
  | fail
  | telFail
deriving DecidableEq, Repr

/-- Telemetry row inserted for a device whose upsert returned `id`
(telemetryController.ts, the object literal passed to `.insert`). -/
def mkTelemetryRow (id : Nat) (ts : Timestamp) (uid : String) (d : DeviceInput) : TelemetryRow where
  device_id := id
  user_id := uid
  timestamp := ts
  rx_bytes := parseBytes d.rx_bytes
  tx_bytes := parseBytes d.tx_bytes
  signal_strength := d.signal_strength
  connection_time := d.connection_time.getD 0

/-- One iteration of the `for (const device of devices)` loop: returns the new
store and this device's contribution to `successCount`. -/
def processDevice (uid : String) (ts : Timestamp) (db : DB) (d : DeviceInput) : Outcome → DB × Nat
  | .fail => (db, 0)
  | .telFail => ((upsertDevice db ts uid d).1, 1)
  | .ok =>
    let u := upsertDevice db ts uid d
    ({ u.1 with telemetry := u.1.telemetry ++ [mkTelemetryRow u.2 ts uid d] }, 1)

/-- The whole device loop; `env i` is the outcome of the database calls for the
`i`-th device (counting from `start`). -/
def processDevices (uid : String) (ts : Timestamp) (env : Nat → Outcome) :
    DB → List DeviceInput → Nat → DB × Nat
  | db, [], _ => (db, 0)
  | db, d :: rest, i =>
    let s := processDevice uid ts db d (env i)
    let r := processDevices uid ts env s.1 rest (i + 1)
    (r.1, s.2 + r.2)

/-- Request body of POST /api/telemetry: `devices` is `some` only when present
and an array; `user_id` is the posted string, if present. -/
structure TelemetryRequest where
  devices : Option (List DeviceInput)
  user_id : Option String
deriving DecidableEq, Repr

/-- Responses of POST /api/telemetry. -/
inductive TelemetryResponse where
  | badRequest (error : String)
  | ok (received stored : Nat)
  | serverError
deriving DecidableEq, Repr

/-- HTTP status of a telemetry response (`res.status(400)`, default 200,
`res.status(500)`). -/
def TelemetryResponse.status : TelemetryResponse → Nat
  | .badRequest _ => 400
  | .ok _ _ => 200
  | .serverError => 500

/-- `receiveTelemetry` (POST /api/telemetry). `crash` injects the unexpected
top-level error the outer `catch` turns into a 500; `ts` is the single
`new Date().toISOString()` captured before the loop. A missing/non-array
`devices` or a falsy `user_id` (absent or empty string) is a 400 with nothing
stored; otherwise the reply is 200 with `received` = array length and
`stored` = `successCount`. -/
def receiveTelemetry (crash : Bool) (env : Nat → Outcome) (ts : Timestamp)
    (body : TelemetryRequest) (db : DB) : DB × TelemetryResponse :=
  if crash then (db, .serverError) else
  match body.devices with
  | none => (db, .badRequest "Invalid payload: devices array required")
  | some devs =>
    match body.user_id with
    | none => (db, .badRequest "Invalid payload: user_id required")
    | some uid =>
      if uid = "" then (db, .badRequest "Invalid payload: user_id required")
      else
        let p := processDevices uid ts env db devs 0
        (p.1, .ok devs.length p.2)

/-! ## GET /api/devices/:mac — devicesController.ts, getDeviceByMac -/

/-- Hexadecimal digit, as the character class `[0-9A-Fa-f]` accepts it. -/
def isHexChar (c : Char) : Bool :=
  let n := c.toNat
  (48 ≤ n && n ≤ 57) || (65 ≤ n && n ≤ 70) || (97 ≤ n && n ≤ 102)

/-- The controller's MAC test `^([0-9A-Fa-f]{2}[:-]){5}([0-9A-Fa-f]{2})$`:
17 characters, a `:` or `-` at positions 2, 5, 8, 11, 14, hex digits elsewhere.
The empty string also fails, so the separate `!mac` check needs no extra case. -/
def macFormatValid (s : String) : Bool :=
  let cs := s.data
  cs.length == 17 &&
    (List.range 17).all (fun i =>
      let c := cs.getD i ' '
      if i % 3 == 2 then c == ':' || c == '-' else isHexChar c)

/-- The column names of the `devices` table: the columns the ingest path writes
plus the generated `id`. There is no column named `mac`. -/
def devicesColumns : List String :=
  ["id", "mac_address", "hostname", "ip_address", "band", "signal_strength",
   "connection_status", "last_seen_at", "user_id", "ssid", "wireless_mode",
   "last_tx_rate", "rx_bytes_total", "tx_bytes_total", "online_minutes",
   "power_saving"]

/-- Textual rendering of a devices-table column of a row, `none` when the table
has no such column (a filter on it can never succeed). -/
def DeviceRow.column (r : DeviceRow) (c : String) : Option String :=
  if c = "id" then some (toString r.id)
  else if c = "mac_address" then some r.mac_address
  else if c = "hostname" then some r.hostname
  else if c = "ip_address" then some r.ip_address
  else if c = "band" then some r.band
  else if c = "signal_strength" then r.signal_strength.map toString
  else if c = "connection_status" then some r.connection_status
  else if c = "last_seen_at" then some (toString r.last_seen_at.time)
  else if c = "user_id" then some r.user_id
  else if c = "ssid" then some r.ssid
  else if c = "wireless_mode" then some r.wireless_mode
  else if c = "last_tx_rate" then some r.last_tx_rate
  else if c = "rx_bytes_total" then some (toString r.rx_bytes_total)
  else if c = "tx_bytes_total" then some (toString r.tx_bytes_total)
  else if c = "online_minutes" then some (toString r.online_minutes)
  else if c = "power_saving" then some (toString r.power_saving)
  else none

/-- Errors a PostgREST `.eq(column, value).select().single()` can report:
`undefinedColumn` (code 42703) when the filtered column does not exist, and
`noRows` (code PGRST116) when `.single()` does not get exactly one row. -/
inductive PgError where
  | undefinedColumn
  | noRows
deriving DecidableEq, Repr

/-- `.eq(column, value).select().single()` against the `devices` table. -/
def eqSingleDevice (rows : List DeviceRow) (c v : String) : Except PgError DeviceRow :=
  if c ∈ devicesColumns then
    match rows.filter (fun r => r.column c == some v) with
    | [r] => .ok r
    | _ => .error .noRows
  else .error .undefinedColumn

/-- Responses of GET /api/devices/:mac. -/
inductive LookupResponse where
  | invalidMac
  | notFound (mac : String)
  | found (r : DeviceRow)
  | serverError
deriving DecidableEq, Repr

/-- HTTP status of a device-lookup response. -/
def LookupResponse.status : LookupResponse → Nat
  | .invalidMac => 400
  | .notFound _ => 404
  | .found _ => 200
  | .serverError => 500

/-- `getDeviceByMac` (GET /api/devices/:mac): validate the MAC, then
`.from(devices).select().eq(mac, mac.toUpperCase()).single()`; a PGRST116
error is a 404, any other error is re-thrown and becomes a 500. -/
def getDeviceByMac (mac : String) (rows : List DeviceRow) : LookupResponse :=
  if !macFormatValid mac then .invalidMac
  else
    match eqSingleDevice rows "mac" mac.toUpper with
    | .ok r => .found r
    | .error .noRows => .notFound mac
    | .error .undefinedColumn => .serverError

/-! ## Query-parameter limits — getAllDevices, getTelemetryHistory, getDeviceHistory -/

/-- Whitespace JS `parseInt` skips (the query strings involved are ASCII). -/
def jsSpace (c : Char) : Bool :=
  c == ' ' || c == '\t' || c == '\n' || c == '\r'

/-- Value of a list of hexadecimal digit characters, most significant first. -/
def natOfHexDigits (l : List Char) : Nat :=
  l.foldl (fun a c =>
    a * 16 + (if c.toNat ≤ 57 then c.toNat - 48
              else if c.toNat ≤ 70 then c.toNat - 55
              else c.toNat - 87)) 0

/-- JS `parseInt(s)` (radix unspecified): skip leading whitespace, an optional
sign, then either a `0x`/`0X` hexadecimal literal or a run of decimal digits;
`none` is `NaN`. The counters involved stay far below 2^53, where `parseInt`
is exact. -/
def jsParseInt (q : Option String) : Option Int :=
  match q with
  | none => none
  | some s =>
    let cs := s.data.dropWhile jsSpace
    let (sign, cs2) : Int × List Char :=
      match cs with
      | '-' :: r => (-1, r)
      | '+' :: r => (1, r)
      | _ => (1, cs)
    match cs2 with
    | '0' :: c :: rest =>
      if c == 'x' || c == 'X' then
        let hs := rest.takeWhile isHexChar
        if hs.isEmpty then none else some (sign * (natOfHexDigits hs : Int))
      else
        let ds := cs2.takeWhile Char.isDigit
        if ds.isEmpty then none else some (sign * (natOfDigits ds : Int))
    | _ =>
      let ds := cs2.takeWhile Char.isDigit
      if ds.isEmpty then none else some (sign * (natOfDigits ds : Int))

/-- The limit computation the three read endpoints share verbatim:
`Math.min(parseInt(req.query.limit) || dflt, 500)` (`|| dflt` replaces both
`NaN` and `0`). -/
def queryLimit (dflt : Nat) (q : Option String) : Int :=
  let base : Int :=
    match jsParseInt q with
    | some v => if v = 0 then (dflt : Int) else v
    | none => (dflt : Int)
  min base 500

/-- Row limit of GET /api/devices (devicesController.ts, default 100). -/
def getAllDevicesLimit (q : Option String) : Int := queryLimit 100 q

/-- Row limit of GET /api/telemetry (telemetryController.ts, default 50). -/
def getTelemetryHistoryLimit (q : Option String) : Int := queryLimit 50 q

/-- Row limit of GET /api/devices/:mac/history (devicesController.ts,
default 100). -/
def getDeviceHistoryLimit (q : Option String) : Int := queryLimit 100 q

/-! ## The two aggregate-statistics endpoints -/

/-- JS `Math.round`: half-way cases round toward +∞. -/
def jsRound (q : ℚ) : Int := ⌊q + 1 / 2⌋

/-- The devices seen in the last five minutes. Both aggregate controllers
inline this same expression (`last_seen_at >= fiveMinutesAgo`, an ISO-string
comparison that orders by epoch time, with
`fiveMinutesAgo = now - 5 * 60 * 1000`). -/
def activeRows (now : Int) (rows : List DeviceRow) : List DeviceRow :=
  rows.filter (fun d => decide (now - 5 * 60 * 1000 ≤ d.last_seen_at.time))

/-- Response of GET /api/devices/stats (devicesController.ts, getDeviceStats).
The `devices_by_band` map and the `timestamp` echo are not modelled: no claim
touches them. -/
structure DeviceStatsResult where
  total_devices : Nat
  active_devices : Nat
  offline_devices : Nat
  average_signal_strength : Int
deriving DecidableEq, Repr

/-- `getDeviceStats`: fetch all devices, split off those seen in the last five
minutes (the ISO-string comparison `last_seen_at >= fiveMinutesAgo` orders by
epoch time), average the non-null signal strengths of the active ones with
`Math.round`, `0` when there are none. -/
def getDeviceStats (now : Int) (rows : List DeviceRow) : DeviceStatsResult :=
  let active := activeRows now rows
  let signalLevels : List Int := active.filterMap (fun d => d.signal_strength)
  { total_devices := rows.length
    active_devices := active.length
    offline_devices := rows.length - active.length
    average_signal_strength :=
      if signalLevels.length > 0 then
        jsRound ((signalLevels.sum : ℚ) / (signalLevels.length : ℚ))
      else 0 }

/-- `hay.includes(sub)` for the band tags involved (non-empty `sub`). -/
def strIncludes (hay sub : String) : Bool := (hay.splitOn sub).length ≥ 2

/-- Response of GET /api/statistics/overview (statisticsController.ts,
getNetworkOverview); `updated_at` is not modelled. -/
structure NetworkOverviewResult where
  total_devices : Nat
  active_devices : Nat
  offline_devices : Nat
  devices_24ghz : Nat
  devices_5ghz : Nat
  total_bandwidth_down : Int
  total_bandwidth_up : Int
  average_signal_strength : ℚ
deriving DecidableEq, Repr

/-- `getNetworkOverview`: same five-minute split, but the signal average treats
a null `signal_strength` as `0`, divides by the count of all active devices,
and is not rounded. -/
def getNetworkOverview (now : Int) (rows : List DeviceRow) : NetworkOverviewResult :=
  let active := activeRows now rows
  let sigSum : Int := (active.map (fun d => d.signal_strength.getD 0)).sum
  { total_devices := rows.length
    active_devices := active.length
    offline_devices := rows.length - active.length
    devices_24ghz := (rows.filter (fun d => strIncludes d.band "2.4")).length
    devices_5ghz := (rows.filter (fun d => strIncludes d.band "5")).length
    total_bandwidth_down := (rows.map (fun d => d.rx_bytes_total)).sum
    total_bandwidth_up := (rows.map (fun d => d.tx_bytes_total)).sum
    average_signal_strength :=
      if active.length > 0 then (sigSum : ℚ) / (active.length : ℚ)
      else 0 }

/-! ## GET /api/statistics/hourly-patterns — routes/statistics.ts -/

/-- `parseRangeToStart`: start of the window, 24 hours before `now` by default,
7 or 30 days for ranges `7d` / `30d`. -/
def parseRangeToStart (now : Int) (range : Option String) : Int :=
  let r := range.getD "24h"
  if r = "7d" then now - 7 * 24 * 60 * 60 * 1000
  else if r = "30d" then now - 30 * 24 * 60 * 60 * 1000
  else now - 24 * 60 * 60 * 1000

/-- The route's `days` array: index 0 is Monday (`(getDay() + 6) % 7`). -/
def dayNames : List String := ["Mon", "Tue", "Wed", "Thu", "Fri", "Sat", "Sun"]

/-- Day label of a telemetry row, `days[(date.getDay() + 6) % 7]`. -/
def rowDay (t : TelemetryRow) : String := dayNames.getD ((t.timestamp.day.val + 6) % 7) ""

/-- Hour of a telemetry row, `date.getHours()`. -/
def rowHour (t : TelemetryRow) : Nat := t.timestamp.hours.val

/-- The JS `Map` keyed by the template string `day-hour`: since day labels
contain no dash, the key encodes exactly the (day label, hour) pair, modelled
as that pair. `set` prepends and `get` takes the most recent entry, which is
observationally the `Map`'s overwrite-and-lookup behaviour. -/
def bucketsGet (m : List ((String × Nat) × Int)) (k : String × Nat) : Option Int :=
  (m.find? (fun p => decide (p.1 = k))).map (fun p => p.2)

/-- The bucket-accumulation loop:
`buckets.set(key, (buckets.get(key) || 0) + ((t.rx_bytes || 0) + (t.tx_bytes || 0)))`
for each row. -/
def buildBuckets (rows : List TelemetryRow) : List ((String × Nat) × Int) :=
  rows.foldl
    (fun m t =>
      ((rowDay t, rowHour t),
        (bucketsGet m (rowDay t, rowHour t)).getD 0 + (t.rx_bytes + t.tx_bytes)) :: m)
    []

/-- One element of the hourly-patterns response array. -/
structure PatternEntry where
  hour : Nat
  day : String
  value : ℚ
deriving DecidableEq, Repr

/-- GET /api/statistics/hourly-patterns: fetch the telemetry rows with
`timestamp >= start`, accumulate per (day, hour) bucket, then emit, for each
day Mon‥Sun and each hour 0‥23 in order, the bucket total divided by 1024². -/
def hourlyPatterns (now : Int) (range : Option String) (rows : List TelemetryRow) :
    List PatternEntry :=
  let start := parseRangeToStart now range
  let inRange := rows.filter (fun t => decide (start ≤ t.timestamp.time))
  let buckets := buildBuckets inRange
  dayNames.flatMap (fun day =>
    (List.range 24).map (fun hour =>
      { hour := hour
        day := day
        value := (((bucketsGet buckets (day, hour)).getD 0 : ℚ) / (1024 * 1024)) }))

/-! ## The dashboard QoS save — frontend BandwidthControl.tsx, handleSave -/

/-- UI state for one port: the toggle and the entered cap (Kbps). -/
structure PortState where
  enabled : Bool
  maxBandwidth : Int
deriving DecidableEq, Repr

/-- The component's settings state, one entry per port. -/
structure BandwidthSettings where
  wan : PortState
  lan1 : PortState
  lan2 : PortState
  lan3 : PortState
  lan4 : PortState
deriving DecidableEq, Repr

/-- One entry of the `portSettings` object POSTed to the agent. -/
structure PortSetting where
  max_bandwidth : Int
  ingress_bandwidth : Int
  egress_bandwidth : Int
deriving DecidableEq, Repr

/-- The object literal `handleSave` builds for a port:
`max_bandwidth` is the entered cap, `ingress_bandwidth` is `-1`
(source comment: `-1 = unlimited download`), `egress_bandwidth` is the cap when
the port is enabled and `-1` otherwise. -/
def mkPortSetting (p : PortState) : PortSetting where
  max_bandwidth := p.maxBandwidth
  ingress_bandwidth := -1
  egress_bandwidth := if p.enabled then p.maxBandwidth else -1

/-- A port is included when it is enabled or its cap changed
(`portData.enabled || portData.maxBandwidth !== settings[port].maxBandwidth`). -/
def portEntry (name : String) (pending current : PortState) : List (String × PortSetting) :=
  if pending.enabled || !(pending.maxBandwidth == current.maxBandwidth) then
    [(name, mkPortSetting pending)]
  else []

/-- The `portSettings` record `handleSave` POSTs to
`http://localhost:5000/set-bandwidth-limit`: the WAN entry, then LAN1‥LAN4. -/
def buildPortSettings (pending current : BandwidthSettings) : List (String × PortSetting) :=
  portEntry "WAN" pending.wan current.wan ++
  portEntry "LAN1" pending.lan1 current.lan1 ++
  portEntry "LAN2" pending.lan2 current.lan2 ++
  portEntry "LAN3" pending.lan3 current.lan3 ++
  portEntry "LAN4" pending.lan4 current.lan4

/-! ## Data-flow direction — the HTTP calls appearing in the sources -/

/-- The deployable units of the system (spec §2) plus the router itself. -/
inductive Component where
  | router
  | agent
  | cloudAPI
  | dashboard
deriving DecidableEq, Repr

/-- An HTTP call as it appears in the sources: who issues it, who serves it,
and whether it carries a request body (data sent from source to target). -/
structure NetCall where
  source : Component
  target : Component
  method : String
  path : String
  hasBody : Bool
deriving DecidableEq, Repr

/-- Components on the router's side of the dashboard: a request body sent there
from the dashboard travels against the router → agent → cloud → dashboard
direction. The agent is the process that talks to the router. -/
def Component.routerSide : Component → Bool
  | .router => true
  | .agent => true
  | _ => false

/-- Every HTTP call appearing in the TypeScript sources: the `fetch` calls of
the frontend (`localhost:5000` is the local agent, `API_BASE_URL` the cloud
backend) and the agent's telemetry push that backend/src/routes/telemetry.ts
receives. -/
def systemCalls : List NetCall :=
  [⟨.dashboard, .agent, "GET", "/get-qos-settings", false⟩,
   ⟨.dashboard, .agent, "POST", "/set-bandwidth-limit", true⟩,
   ⟨.dashboard, .agent, "POST", "/block-device", true⟩,
   ⟨.dashboard, .agent, "GET", "/status", false⟩,
   ⟨.dashboard, .agent, "GET", "/health", false⟩,
   ⟨.dashboard, .agent, "GET", "/config-exists", false⟩,
   ⟨.dashboard, .cloudAPI, "POST", "/api/setup/test", true⟩,
   ⟨.dashboard, .cloudAPI, "POST", "/api/setup/save", true⟩,
   ⟨.dashboard, .cloudAPI, "GET", "/api/devices", false⟩,
   ⟨.dashboard, .cloudAPI, "GET", "/api/statistics/hourly-patterns", false⟩,
   ⟨.agent, .cloudAPI, "POST", "/api/telemetry", true⟩]

/-- Number of devices of the array whose two database calls both succeed
(outcome `ok`), counting indices from `i`: the telemetry rows appended. -/
def okCount (env : Nat → Outcome) : Nat → List DeviceInput → Nat
  | _, [] => 0
  | i, _ :: rest => (if env i = Outcome.ok then 1 else 0) + okCount env (i + 1) rest

/-- Number of devices of the array whose upsert succeeds (outcome not `fail`),
counting indices from `i`: the loop's `successCount`. -/
def storedCount (env : Nat → Outcome) : Nat → List DeviceInput → Nat
  | _, [] => 0
  | i, _ :: rest => (if env i = Outcome.fail then 0 else 1) + storedCount env (i + 1) rest

/-- The row the request stamps for a posted device: some devices row carries
MAC `m`, id `n`, `connection_status` `online` and the request timestamp. -/
def hasFreshRow (devices : List DeviceRow) (m : String) (n : Nat) (ts : Timestamp) : Prop :=
  ∃ r ∈ devices, r.mac_address = m ∧ r.id = n ∧
    r.connection_status = "online" ∧ r.last_seen_at = ts

instance (devices : List DeviceRow) (m : String) (n : Nat) (ts : Timestamp) :
    Decidable (hasFreshRow devices m n ts) :=
  List.decidableBEx _ devices

/-- The `mac_address` column of the devices table, in row order. -/
def macsOf (l : List DeviceRow) : List String := l.map (fun r => r.mac_address)

/-! ## Shared sample data for concrete instantiations -/

/-- A representative agent-posted device used by concrete instantiations. -/
def sampleDevice : DeviceInput :=
  ⟨"AA:BB:CC:DD:EE:FF", "host", "192.168.0.7", "2.4 GHz", some (-40), "net", "11n",
    "72", .str "123", .num 7, some 3, some true, some 9⟩

/-- A fixed request timestamp used by concrete instantiations. -/
def sampleTs : Timestamp := ⟨5, 2, 3⟩

/-! ## Helper lemmas -/

theorem digits_fold_filter (l : List Char) :
    ∀ a : Nat,
      (l.filter Char.isDigit).foldl (fun a c => a * 10 + (c.toNat - 48)) a
        = l.foldl (fun a c => if c.isDigit then a * 10 + (c.toNat - 48) else a) a := by
  induction l with
  | nil => intro a; rfl
  | cons c l ih =>
    intro a
    by_cases h : c.isDigit = true
    · simp [List.filter_cons, h, ih]
    · simp [List.filter_cons, h, ih]

theorem portEntry_mem {n : String} {p c : PortState} {x : String × PortSetting}
    (h : x ∈ portEntry n p c) : x = (n, mkPortSetting p) := by
  unfold portEntry at h
  split at h
  · simpa using h
  · simp at h

/-! ## Claim theorems -/

/-- Claim C5, counterexample: the spec says the stored counter always equals
the nonnegative number formed by the decimal digits of the supplied value, but
for the JSON number `-5` the code stores `parseInt(-5) = -5`, a negative value
different from the digit concatenation `5`. -/
theorem parseBytes_numeric_counter_cex :
    parseBytes (.num (-5)) = -5 ∧ parseBytes (.num (-5)) < 0 ∧
    (digitConcat "-5" : Int) = 5 ∧ parseBytes (.num (-5)) ≠ (digitConcat "-5" : Int) := by
  decide

/-- Claim C5 (amended): `parseBytes` is total and never fails; for a *string*
value the stored counter is exactly the nonnegative integer formed by the
decimal digits of the string in order (`0` when there are none); for an
integral JSON *number* it is the number itself (possibly negative); for an
absent value it is `0`. -/
theorem parseBytes_total_digit_mapping :
    (∀ s : String, parseBytes (.str s) = (digitConcat s : Int) ∧ 0 ≤ parseBytes (.str s)) ∧
    (∀ n : Int, parseBytes (.num n) = n) ∧ parseBytes .absent = 0 := by
  refine ⟨fun s => ?_, fun n => rfl, rfl⟩
  have key : digitConcat s = natOfDigits (s.data.filter Char.isDigit) := by
    unfold digitConcat natOfDigits
    exact (digits_fold_filter s.data 0).symm
  unfold parseBytes
  by_cases h : (s.data.filter Char.isDigit).isEmpty = true
  · have : s.data.filter Char.isDigit = [] := List.isEmpty_iff.mp h
    simp [h, key, this, natOfDigits]
  · simp [h, key]

/-- Claim C6, counterexample: with the WAN port enabled at 1000 Kbps the saved
QoS entry is `{max_bandwidth: 1000, ingress_bandwidth: -1, egress_bandwidth:
1000}` — the download (ingress) side is `-1`, i.e. unlimited, not capped at the
configured maximum as the claim states. -/
theorem buildPortSettings_ingress_cex :
    buildPortSettings
        ⟨⟨true, 1000⟩, ⟨false, 0⟩, ⟨false, 0⟩, ⟨false, 0⟩, ⟨false, 0⟩⟩
        ⟨⟨false, 0⟩, ⟨false, 0⟩, ⟨false, 0⟩, ⟨false, 0⟩, ⟨false, 0⟩⟩
      = [("WAN", ⟨1000, -1, 1000⟩)] ∧
    ∃ x ∈ buildPortSettings
        ⟨⟨true, 1000⟩, ⟨false, 0⟩, ⟨false, 0⟩, ⟨false, 0⟩, ⟨false, 0⟩⟩
        ⟨⟨false, 0⟩, ⟨false, 0⟩, ⟨false, 0⟩, ⟨false, 0⟩, ⟨false, 0⟩⟩,
      x.2.ingress_bandwidth ≠ x.2.max_bandwidth := by
  decide

/-- Claim C6 (amended): every port entry the dashboard saves caps only the
upload side: `egress_bandwidth` is the configured maximum when the port is
enabled (`-1` when it is merely modified while disabled), `max_bandwidth` is
the configured maximum, and `ingress_bandwidth` (download) is always `-1`,
i.e. unlimited. -/
theorem buildPortSettings_upload_only
    (pending current : BandwidthSettings) (x : String × PortSetting)
    (h : x ∈ buildPortSettings pending current) :
    x.2.ingress_bandwidth = -1 ∧
    ∃ p : PortState,
      (p = pending.wan ∨ p = pending.lan1 ∨ p = pending.lan2 ∨
        p = pending.lan3 ∨ p = pending.lan4) ∧
      x.2.max_bandwidth = p.maxBandwidth ∧
      x.2.egress_bandwidth = (if p.enabled then p.maxBandwidth else -1) := by
  unfold buildPortSettings at h
  simp only [List.mem_append] at h
  rcases h with ((((h | h) | h) | h) | h) <;> rw [portEntry_mem h]
  · exact ⟨rfl, pending.wan, Or.inl rfl, rfl, rfl⟩
  · exact ⟨rfl, pending.lan1, Or.inr (Or.inl rfl), rfl, rfl⟩
  · exact ⟨rfl, pending.lan2, Or.inr (Or.inr (Or.inl rfl)), rfl, rfl⟩
  · exact ⟨rfl, pending.lan3, Or.inr (Or.inr (Or.inr (Or.inl rfl))), rfl, rfl⟩
  · exact ⟨rfl, pending.lan4, Or.inr (Or.inr (Or.inr (Or.inr rfl))), rfl, rfl⟩

/-- Claim C6, concrete instantiation of the amended theorem at the enabled WAN
port. -/
theorem buildPortSettings_upload_only_witness :
    (("WAN", (⟨1000, -1, 1000⟩ : PortSetting)) ∈
      buildPortSettings
        ⟨⟨true, 1000⟩, ⟨false, 0⟩, ⟨false, 0⟩, ⟨false, 0⟩, ⟨false, 0⟩⟩
        ⟨⟨false, 0⟩, ⟨false, 0⟩, ⟨false, 0⟩, ⟨false, 0⟩, ⟨false, 0⟩⟩) ∧
    (⟨1000, -1, 1000⟩ : PortSetting).ingress_bandwidth = -1 :=
  ⟨by decide,
    (buildPortSettings_upload_only
      ⟨⟨true, 1000⟩, ⟨false, 0⟩, ⟨false, 0⟩, ⟨false, 0⟩, ⟨false, 0⟩⟩
      ⟨⟨false, 0⟩, ⟨false, 0⟩, ⟨false, 0⟩, ⟨false, 0⟩, ⟨false, 0⟩⟩
      ("WAN", ⟨1000, -1, 1000⟩) (by decide)).1⟩

/-- Claim C7, counterexample: the dashboard's bandwidth save POSTs the QoS
port settings to the local agent — a call whose source is the dashboard, whose
target sits on the router's side, and which carries a request body. So it is
not true that no operation sends data or commands from the dashboard back
toward the router. -/
theorem dashboard_sends_toward_router_cex :
    (⟨.dashboard, .agent, "POST", "/set-bandwidth-limit", true⟩ : NetCall) ∈ systemCalls ∧
    ¬ (∀ c ∈ systemCalls,
        ¬(c.source = Component.dashboard ∧ c.target.routerSide = true ∧ c.hasBody = true)) := by
  decide

/-- Claim C7 (amended): data flow is polling-driven router → agent → cloud →
dashboard for telemetry, except for the router-control operations: the only
calls in the sources that send a body from the dashboard toward the router's
side are the QoS save (`POST /set-bandwidth-limit`) and the device block
(`POST /block-device`), both served by the local agent. -/
theorem dashboard_router_control_paths_only
    (c : NetCall) (hc : c ∈ systemCalls) (hs : c.source = Component.dashboard)
    (ht : c.target.routerSide = true) (hb : c.hasBody = true) :
    c.path = "/set-bandwidth-limit" ∨ c.path = "/block-device" := by
  fin_cases hc <;> revert hs ht hb <;> decide

/-- Claim C7, concrete instantiation of the amended theorem at the
device-block call. -/
theorem dashboard_router_control_paths_only_witness :
    ((⟨.dashboard, .agent, "POST", "/block-device", true⟩ : NetCall) ∈ systemCalls) ∧
    (("/block-device" : String) = "/set-bandwidth-limit" ∨
      ("/block-device" : String) = "/block-device") :=
  ⟨by decide,
    dashboard_router_control_paths_only
      ⟨.dashboard, .agent, "POST", "/block-device", true⟩ (by decide) rfl rfl rfl⟩

/-- Claim C10: the row limit requested by GET /api/devices, GET /api/telemetry
and GET /api/devices/:mac/history is never above 500, and a missing,
non-numeric or zero `limit` query parameter falls back to the endpoint's
default (100, 50, 100 respectively). -/
theorem queryLimits_bounded_with_defaults (q : Option String) :
    getAllDevicesLimit q ≤ 500 ∧ getTelemetryHistoryLimit q ≤ 500 ∧
    getDeviceHistoryLimit q ≤ 500 ∧
    (jsParseInt q = none ∨ jsParseInt q = some 0 →
      getAllDevicesLimit q = 100 ∧ getTelemetryHistoryLimit q = 50 ∧
        getDeviceHistoryLimit q = 100) := by
  refine ⟨min_le_right _ _, min_le_right _ _, min_le_right _ _, fun h => ?_⟩
  rcases h with h | h <;>
    simp [getAllDevicesLimit, getTelemetryHistoryLimit, getDeviceHistoryLimit,
      queryLimit, h]

/-- Claim C10, concrete instantiation: a non-numeric `limit` falls back to
each endpoint's default. -/
theorem queryLimits_bounded_with_defaults_witness :
    (jsParseInt (some "abc") = none ∨ jsParseInt (some "abc") = some 0) ∧
    getAllDevicesLimit (some "abc") = 100 ∧
    getTelemetryHistoryLimit (some "abc") = 50 ∧
    getDeviceHistoryLimit (some "abc") = 100 :=
  ⟨Or.inl rfl, (queryLimits_bounded_with_defaults (some "abc")).2.2.2 (Or.inl rfl)⟩

/-- Claim C2 (code bug): a device ingested through POST /api/telemetry with the
well-formed MAC `AA:BB:CC:DD:EE:FF` is persisted under the `mac_address`
column, but GET /api/devices/:mac filters the `devices` table on a column
named `mac`, which the table does not have — the lookup errors (a non-PGRST116
error, hence a 500 response) and never returns the persisted device with a
200. -/
theorem getDeviceByMac_roundtrip_bug :
    macFormatValid "AA:BB:CC:DD:EE:FF" = true ∧
    (∃ r ∈ (receiveTelemetry false (fun _ => Outcome.ok) sampleTs
        ⟨some [sampleDevice], some "u1"⟩ ⟨0, [], []⟩).1.devices,
      r.mac_address = "AA:BB:CC:DD:EE:FF") ∧
    getDeviceByMac "AA:BB:CC:DD:EE:FF"
        (receiveTelemetry false (fun _ => Outcome.ok) sampleTs
          ⟨some [sampleDevice], some "u1"⟩ ⟨0, [], []⟩).1.devices
      = .serverError ∧
    (getDeviceByMac "AA:BB:CC:DD:EE:FF"
        (receiveTelemetry false (fun _ => Outcome.ok) sampleTs
          ⟨some [sampleDevice], some "u1"⟩ ⟨0, [], []⟩).1.devices).status ≠ 200 := by
  decide

/-! ## Claim C9 — the two aggregate endpoints -/

theorem filterMap_signal_of_ne_none :
    ∀ l : List DeviceRow, (∀ d ∈ l, d.signal_strength ≠ none) →
      l.filterMap (fun d => d.signal_strength)
        = l.map (fun d => d.signal_strength.getD 0) := by
  intro l
  induction l with
  | nil => intro _; rfl
  | cons d l ih =>
    intro h
    rcases hd : d.signal_strength with _ | v
    · exact absurd hd (h d (List.mem_cons_self d l))
    · simp only [List.filterMap_cons, List.map_cons, hd, Option.getD_some]
      exact congrArg (v :: ·) (ih fun x hx => h x (List.mem_cons_of_mem d hx))

/-- Claim C9, counterexample: with two active devices, one at −50 dBm and one
with a null signal, GET /api/devices/stats reports −50 (mean of the non-null
signals, rounded) while GET /api/statistics/overview reports −25 (nulls counted
as 0, unrounded), so the two endpoints do not return equal average signal
strengths on the same devices state. -/
theorem statistics_average_signal_cex :
    (getDeviceStats 1000000
        [mkDeviceRow 1 ⟨1000000, 0, 0⟩ "u"
            ⟨"m1", "h", "i", "b", some (-50), "s", "w", "r", .absent, .absent, none, none, none⟩,
         mkDeviceRow 2 ⟨1000000, 0, 0⟩ "u"
            ⟨"m2", "h", "i", "b", none, "s", "w", "r", .absent, .absent, none, none, none⟩]).average_signal_strength
      = -50 ∧
    (getNetworkOverview 1000000
        [mkDeviceRow 1 ⟨1000000, 0, 0⟩ "u"
            ⟨"m1", "h", "i", "b", some (-50), "s", "w", "r", .absent, .absent, none, none, none⟩,
         mkDeviceRow 2 ⟨1000000, 0, 0⟩ "u"
            ⟨"m2", "h", "i", "b", none, "s", "w", "r", .absent, .absent, none, none, none⟩]).average_signal_strength
      = -25 ∧
    ((-50 : Int) : ℚ) ≠ (-25 : ℚ) := by
  refine ⟨?_, ?_, by norm_num⟩
  · norm_num [getDeviceStats, activeRows, jsRound, mkDeviceRow, List.filter, List.filterMap]
  · norm_num [getNetworkOverview, activeRows, mkDeviceRow, List.filter]

/-- Claim C9 (amended): on the same devices state the two endpoints return
equal total, active and offline device counts; the average signal strengths
agree whenever every active device has a non-null signal strength and the mean
is an integer, but differ in general, since `/api/devices/stats` skips null
signals and rounds while `/api/statistics/overview` counts nulls as 0 and does
not round. -/
theorem statistics_endpoints_agreement (now : Int) (rows : List DeviceRow) :
    (getDeviceStats now rows).total_devices = (getNetworkOverview now rows).total_devices ∧
    (getDeviceStats now rows).active_devices = (getNetworkOverview now rows).active_devices ∧
    (getDeviceStats now rows).offline_devices = (getNetworkOverview now rows).offline_devices ∧
    ((∀ d ∈ activeRows now rows, d.signal_strength ≠ none) →
      ((activeRows now rows).length : Int) ∣
          ((activeRows now rows).filterMap (fun d => d.signal_strength)).sum →
      ((getDeviceStats now rows).average_signal_strength : ℚ)
        = (getNetworkOverview now rows).average_signal_strength) := by
  refine ⟨rfl, rfl, rfl, fun hall hdvd => ?_⟩
  have hmap := filterMap_signal_of_ne_none (activeRows now rows) hall
  simp only [getDeviceStats, getNetworkOverview, hmap, List.length_map]
  rw [hmap] at hdvd
  by_cases hn : (activeRows now rows).length = 0
  · simp [List.length_eq_zero.mp hn]
  · have hpos : 0 < (activeRows now rows).length := Nat.pos_of_ne_zero hn
    rw [if_pos hpos, if_pos hpos]
    obtain ⟨k, hk⟩ := hdvd
    have hnq : ((activeRows now rows).length : ℚ) ≠ 0 := Nat.cast_ne_zero.mpr hn
    have hq : ((((activeRows now rows).map (fun d => d.signal_strength.getD 0)).sum : Int) : ℚ)
        / ((activeRows now rows).length : ℚ) = (k : ℚ) := by
      rw [hk]
      push_cast
      field_simp
    rw [hq]
    simp only [jsRound]
    rw [Int.floor_int_add]
    norm_num

/-- Claim C9, concrete instantiation of the amended theorem: one active device
at −50 dBm, where both endpoints report an average of −50. -/
theorem statistics_endpoints_agreement_witness :
    (∀ d ∈ activeRows 1000000
        [mkDeviceRow 1 ⟨1000000, 0, 0⟩ "u"
          ⟨"m1", "h", "i", "b", some (-50), "s", "w", "r", .absent, .absent, none, none, none⟩],
      d.signal_strength ≠ none) ∧
    (((activeRows 1000000
        [mkDeviceRow 1 ⟨1000000, 0, 0⟩ "u"
          ⟨"m1", "h", "i", "b", some (-50), "s", "w", "r", .absent, .absent, none, none, none⟩]).length : Int) ∣
      ((activeRows 1000000
        [mkDeviceRow 1 ⟨1000000, 0, 0⟩ "u"
          ⟨"m1", "h", "i", "b", some (-50), "s", "w", "r", .absent, .absent, none, none, none⟩]).filterMap
            (fun d => d.signal_strength)).sum) ∧
    ((getDeviceStats 1000000
        [mkDeviceRow 1 ⟨1000000, 0, 0⟩ "u"
          ⟨"m1", "h", "i", "b", some (-50), "s", "w", "r", .absent, .absent, none, none, none⟩]).average_signal_strength : ℚ)
      = (getNetworkOverview 1000000
        [mkDeviceRow 1 ⟨1000000, 0, 0⟩ "u"
          ⟨"m1", "h", "i", "b", some (-50), "s", "w", "r", .absent, .absent, none, none, none⟩]).average_signal_strength :=
  ⟨by decide, ⟨-50, by decide⟩,
    (statistics_endpoints_agreement 1000000
        [mkDeviceRow 1 ⟨1000000, 0, 0⟩ "u"
          ⟨"m1", "h", "i", "b", some (-50), "s", "w", "r", .absent, .absent, none, none, none⟩]).2.2.2
      (by decide) ⟨-50, by decide⟩⟩

/-! ## Helper lemmas on the ingest loop -/

theorem okCount_cons (env : Nat → Outcome) (i : Nat) (d : DeviceInput)
    (rest : List DeviceInput) :
    okCount env i (d :: rest)
      = (if env i = Outcome.ok then 1 else 0) + okCount env (i + 1) rest := rfl

theorem storedCount_cons (env : Nat → Outcome) (i : Nat) (d : DeviceInput)
    (rest : List DeviceInput) :
    storedCount env i (d :: rest)
      = (if env i = Outcome.fail then 0 else 1) + storedCount env (i + 1) rest := rfl

theorem upsert_telemetry (db : DB) (ts : Timestamp) (uid : String) (d : DeviceInput) :
    (upsertDevice db ts uid d).1.telemetry = db.telemetry := by
  unfold upsertDevice
  cases db.devices.find? (fun r => r.mac_address == d.mac) <;> rfl

theorem upsert_keeps_row (db : DB) (ts : Timestamp) (uid : String) (d : DeviceInput)
    {m : String} {n : Nat} (h : hasFreshRow db.devices m n ts) :
    hasFreshRow (upsertDevice db ts uid d).1.devices m n ts := by
  obtain ⟨r, hr, hm, hn, hc, hl⟩ := h
  unfold upsertDevice
  cases hfind : db.devices.find? (fun r => r.mac_address == d.mac) with
  | some ex =>
    refine ⟨if r.mac_address == d.mac then mkDeviceRow r.id ts uid d else r,
      List.mem_map_of_mem _ hr, ?_⟩
    by_cases hcase : (r.mac_address == d.mac) = true
    · have hrm : r.mac_address = d.mac := by simpa using hcase
      rw [if_pos hcase]
      exact ⟨show d.mac = m from hrm ▸ hm, hn, rfl, rfl⟩
    · rw [if_neg hcase]
      exact ⟨hm, hn, hc, hl⟩
  | none =>
    exact ⟨r, List.mem_append_left _ hr, hm, hn, hc, hl⟩

theorem upsert_establishes (db : DB) (ts : Timestamp) (uid : String) (d : DeviceInput) :
    hasFreshRow (upsertDevice db ts uid d).1.devices d.mac (upsertDevice db ts uid d).2 ts := by
  unfold upsertDevice
  cases hfind : db.devices.find? (fun r => r.mac_address == d.mac) with
  | some ex =>
    have hmem := List.mem_of_find?_eq_some hfind
    have hpred : (ex.mac_address == d.mac) = true := by
      have := List.find?_some hfind
      simpa using this
    refine ⟨mkDeviceRow ex.id ts uid d, ?_, rfl, rfl, rfl, rfl⟩
    have hmm := List.mem_map_of_mem
      (fun r => if r.mac_address == d.mac then mkDeviceRow r.id ts uid d else r) hmem
    have hfx : (if ex.mac_address == d.mac then mkDeviceRow ex.id ts uid d else ex)
        = mkDeviceRow ex.id ts uid d := if_pos hpred
    exact hfx ▸ hmm
  | none =>
    exact ⟨mkDeviceRow db.nextId ts uid d,
      List.mem_append_right _ (List.mem_singleton_self _), rfl, rfl, rfl, rfl⟩

theorem processDevice_keeps_row (uid : String) (ts : Timestamp) (db : DB)
    (d : DeviceInput) (o : Outcome) {m : String} {n : Nat}
    (h : hasFreshRow db.devices m n ts) :
    hasFreshRow (processDevice uid ts db d o).1.devices m n ts := by
  cases o with
  | fail => exact h
  | telFail => exact upsert_keeps_row db ts uid d h
  | ok => exact upsert_keeps_row db ts uid d h

theorem processDevice_keeps_tel (uid : String) (ts : Timestamp) (db : DB)
    (d : DeviceInput) (o : Outcome) {t : TelemetryRow} (h : t ∈ db.telemetry) :
    t ∈ (processDevice uid ts db d o).1.telemetry := by
  cases o with
  | fail => exact h
  | telFail => exact (upsert_telemetry db ts uid d).symm ▸ h
  | ok =>
    show t ∈ (upsertDevice db ts uid d).1.telemetry ++ _
    exact List.mem_append_left _ ((upsert_telemetry db ts uid d).symm ▸ h)

theorem processDevices_keeps_row (uid : String) (ts : Timestamp) (env : Nat → Outcome)
    {m : String} {n : Nat} :
    ∀ (devs : List DeviceInput) (db : DB) (start : Nat),
      hasFreshRow db.devices m n ts →
      hasFreshRow (processDevices uid ts env db devs start).1.devices m n ts := by
  intro devs
  induction devs with
  | nil => intro db start h; exact h
  | cons d rest ih =>
    intro db start h
    exact ih _ (start + 1) (processDevice_keeps_row uid ts db d (env start) h)

theorem processDevices_keeps_tel (uid : String) (ts : Timestamp) (env : Nat → Outcome)
    {t : TelemetryRow} :
    ∀ (devs : List DeviceInput) (db : DB) (start : Nat),
      t ∈ db.telemetry → t ∈ (processDevices uid ts env db devs start).1.telemetry := by
  intro devs
  induction devs with
  | nil => intro db start h; exact h
  | cons d rest ih =>
    intro db start h
    exact ih _ (start + 1) (processDevice_keeps_tel uid ts db d (env start) h)

theorem processDevices_device_write (uid : String) (ts : Timestamp) (env : Nat → Outcome) :
    ∀ (devs : List DeviceInput) (db : DB) (start i : Nat) (hi : i < devs.length),
      env (start + i) ≠ Outcome.fail →
      ∃ n, hasFreshRow (processDevices uid ts env db devs start).1.devices
            (devs.get ⟨i, hi⟩).mac n ts ∧
        (env (start + i) = Outcome.ok →
          mkTelemetryRow n ts uid (devs.get ⟨i, hi⟩)
            ∈ (processDevices uid ts env db devs start).1.telemetry) := by
  intro devs
  induction devs with
  | nil => intro db start i hi; exact absurd hi (by simp)
  | cons d rest ih =>
    intro db start i hi hne
    cases i with
    | zero =>
      rw [Nat.add_zero] at hne ⊢
      refine ⟨(upsertDevice db ts uid d).2, ?_, fun hok => ?_⟩
      · apply processDevices_keeps_row uid ts env rest _ (start + 1)
        have hbase := upsert_establishes db ts uid d
        cases ho : env start with
        | fail => exact absurd ho hne
        | telFail => exact hbase
        | ok => exact hbase
      · apply processDevices_keeps_tel uid ts env rest _ (start + 1)
        rw [hok]
        exact List.mem_append_right _ (List.mem_singleton_self _)
    | succ j =>
      have heq : start + (j + 1) = (start + 1) + j := by omega
      rw [heq] at hne ⊢
      exact ih _ (start + 1) j (Nat.lt_of_succ_lt_succ hi) hne

theorem processDevices_telemetry_spec (uid : String) (ts : Timestamp) (env : Nat → Outcome) :
    ∀ (devs : List DeviceInput) (db : DB) (start : Nat),
      ∃ l, (processDevices uid ts env db devs start).1.telemetry = db.telemetry ++ l ∧
        l.length = okCount env start devs ∧
        ∀ t ∈ l, t.timestamp = ts ∧ t.user_id = uid := by
  intro devs
  induction devs with
  | nil =>
    intro db start
    exact ⟨[], by simp [processDevices], rfl, by simp⟩
  | cons d rest ih =>
    intro db start
    cases ho : env start with
    | fail =>
      obtain ⟨l, hl, hlen, hprop⟩ := ih (processDevice uid ts db d (env start)).1 (start + 1)
      refine ⟨l, ?_, ?_, hprop⟩
      · rw [show (processDevices uid ts env db (d :: rest) start).1
            = (processDevices uid ts env (processDevice uid ts db d (env start)).1
                rest (start + 1)).1 from rfl, hl, ho]
        rfl
      · rw [hlen, okCount_cons, ho]
        simp
    | telFail =>
      obtain ⟨l, hl, hlen, hprop⟩ := ih (processDevice uid ts db d (env start)).1 (start + 1)
      refine ⟨l, ?_, ?_, hprop⟩
      · rw [show (processDevices uid ts env db (d :: rest) start).1
            = (processDevices uid ts env (processDevice uid ts db d (env start)).1
                rest (start + 1)).1 from rfl, hl, ho,
          show (processDevice uid ts db d Outcome.telFail).1 = (upsertDevice db ts uid d).1 from rfl,
          upsert_telemetry]
      · rw [hlen, okCount_cons, ho]
        simp
    | ok =>
      obtain ⟨l, hl, hlen, hprop⟩ := ih (processDevice uid ts db d (env start)).1 (start + 1)
      refine ⟨mkTelemetryRow (upsertDevice db ts uid d).2 ts uid d :: l, ?_, ?_, ?_⟩
      · rw [show (processDevices uid ts env db (d :: rest) start).1
            = (processDevices uid ts env (processDevice uid ts db d (env start)).1
                rest (start + 1)).1 from rfl, hl, ho,
          show (processDevice uid ts db d Outcome.ok).1.telemetry
            = (upsertDevice db ts uid d).1.telemetry
              ++ [mkTelemetryRow (upsertDevice db ts uid d).2 ts uid d] from rfl,
          upsert_telemetry]
        simp
      · rw [List.length_cons, hlen, okCount_cons, ho, if_pos rfl]
        omega
      · intro t ht
        rcases List.mem_cons.mp ht with ht | ht
        · subst ht; exact ⟨rfl, rfl⟩
        · exact hprop t ht

theorem processDevices_count (uid : String) (ts : Timestamp) (env : Nat → Outcome) :
    ∀ (devs : List DeviceInput) (db : DB) (start : Nat),
      (processDevices uid ts env db devs start).2 = storedCount env start devs := by
  intro devs
  induction devs with
  | nil => intro db start; rfl
  | cons d rest ih =>
    intro db start
    rw [show (processDevices uid ts env db (d :: rest) start).2
        = (processDevice uid ts db d (env start)).2
          + (processDevices uid ts env (processDevice uid ts db d (env start)).1
              rest (start + 1)).2 from rfl]
    rw [ih]
    cases ho : env start <;> simp [storedCount, processDevice, ho]

theorem storedCount_le_length (env : Nat → Outcome) :
    ∀ (start : Nat) (devs : List DeviceInput),
      storedCount env start devs ≤ devs.length := by
  intro start devs
  induction devs generalizing start with
  | nil => exact Nat.le_refl 0
  | cons d rest ih =>
    simp only [storedCount, List.length_cons]
    have h1 := ih (start + 1)
    cases h : env start <;> simp [h] <;> omega

theorem okCount_all_ok (env : Nat → Outcome) (h : ∀ i, env i = Outcome.ok) :
    ∀ (start : Nat) (devs : List DeviceInput),
      okCount env start devs = devs.length := by
  intro start devs
  induction devs generalizing start with
  | nil => rfl
  | cons d rest ih =>
    rw [okCount_cons, h start, if_pos rfl, ih (start + 1), List.length_cons]
    omega

theorem upsert_macsOf (db : DB) (ts : Timestamp) (uid : String) (d : DeviceInput) :
    macsOf (upsertDevice db ts uid d).1.devices = macsOf db.devices ∨
    (macsOf (upsertDevice db ts uid d).1.devices = macsOf db.devices ++ [d.mac] ∧
      d.mac ∉ macsOf db.devices) := by
  unfold upsertDevice
  cases hfind : db.devices.find? (fun r => r.mac_address == d.mac) with
  | some ex =>
    left
    unfold macsOf
    rw [List.map_map]
    apply List.map_congr_left
    intro r _
    by_cases hcase : (r.mac_address == d.mac) = true
    · have : r.mac_address = d.mac := by simpa using hcase
      simp [hcase, mkDeviceRow, this]
    · have : ¬ r.mac_address = d.mac := fun h => hcase (by simp [h])
      simp [this]
  | none =>
    right
    constructor
    · unfold macsOf
      simp [mkDeviceRow]
    · intro hmem
      obtain ⟨r, hr, hrm⟩ := List.mem_map.mp hmem
      have := List.find?_eq_none.mp hfind r hr
      simp [hrm] at this

theorem processDevice_nodup (uid : String) (ts : Timestamp) (db : DB)
    (d : DeviceInput) (o : Outcome) (h : (macsOf db.devices).Nodup) :
    (macsOf (processDevice uid ts db d o).1.devices).Nodup := by
  have hup : (macsOf (upsertDevice db ts uid d).1.devices).Nodup := by
    rcases upsert_macsOf db ts uid d with heq | ⟨heq, hnm⟩
    · rw [heq]; exact h
    · rw [heq]
      simp [List.nodup_append, h, hnm]
  cases o with
  | fail => exact h
  | telFail => exact hup
  | ok => exact hup

theorem processDevices_nodup (uid : String) (ts : Timestamp) (env : Nat → Outcome) :
    ∀ (devs : List DeviceInput) (db : DB) (start : Nat),
      (macsOf db.devices).Nodup →
      (macsOf (processDevices uid ts env db devs start).1.devices).Nodup := by
  intro devs
  induction devs with
  | nil => intro db start h; exact h
  | cons d rest ih =>
    intro db start h
    exact ih _ (start + 1) (processDevice_nodup uid ts db d (env start) h)

theorem receiveTelemetry_valid (devs : List DeviceInput) (uid : String)
    (env : Nat → Outcome) (ts : Timestamp) (db : DB) (huid : uid ≠ "") :
    receiveTelemetry false env ts ⟨some devs, some uid⟩ db
      = ((processDevices uid ts env db devs 0).1,
          .ok devs.length (processDevices uid ts env db devs 0).2) := by
  unfold receiveTelemetry
  simp [huid]

/-- Claim C1: for a well-formed POST /api/telemetry request (devices array and
non-empty user_id) and every device of the array whose database calls succeed,
the endpoint (a) leaves a devices row keyed on that device's MAC with
`connection_status` `online` and `last_seen_at` equal to the single timestamp
captured at the start of the request, and (b) appends exactly one
telemetry_data row per such device, carrying the id of that MAC's devices row
and that same timestamp; every appended row is stamped with the request
timestamp and user. -/
theorem receiveTelemetry_upsert_and_append
    (devs : List DeviceInput) (uid : String) (env : Nat → Outcome)
    (ts : Timestamp) (db : DB) (huid : uid ≠ "")
    (i : Nat) (hi : i < devs.length) (hok : env i = Outcome.ok) :
    (∃ r ∈ (receiveTelemetry false env ts ⟨some devs, some uid⟩ db).1.devices,
      r.mac_address = (devs.get ⟨i, hi⟩).mac ∧
        r.connection_status = "online" ∧ r.last_seen_at = ts) ∧
    (∃ n, mkTelemetryRow n ts uid (devs.get ⟨i, hi⟩)
          ∈ (receiveTelemetry false env ts ⟨some devs, some uid⟩ db).1.telemetry ∧
        hasFreshRow (receiveTelemetry false env ts ⟨some devs, some uid⟩ db).1.devices
          (devs.get ⟨i, hi⟩).mac n ts) ∧
    (∃ l, (receiveTelemetry false env ts ⟨some devs, some uid⟩ db).1.telemetry
          = db.telemetry ++ l ∧ l.length = okCount env 0 devs ∧
        ∀ t ∈ l, t.timestamp = ts ∧ t.user_id = uid) := by
  simp only [receiveTelemetry_valid devs uid env ts db huid]
  obtain ⟨n, hrow, htel⟩ :=
    processDevices_device_write uid ts env devs db 0 i hi (by simp [hok])
  refine ⟨?_, ⟨n, htel (by simpa using hok), hrow⟩,
    processDevices_telemetry_spec uid ts env devs db 0⟩
  obtain ⟨r, hr, hm, _, hc, hl⟩ := hrow
  exact ⟨r, hr, hm, hc, hl⟩

/-- Claim C1, concrete instantiation at a one-device request. -/
theorem receiveTelemetry_upsert_and_append_witness :
    ("u1" : String) ≠ "" ∧ (0 : Nat) < [sampleDevice].length ∧
    (fun _ : Nat => Outcome.ok) 0 = Outcome.ok ∧
    (∃ r ∈ (receiveTelemetry false (fun _ => Outcome.ok) sampleTs
        ⟨some [sampleDevice], some "u1"⟩ ⟨0, [], []⟩).1.devices,
      r.mac_address = ([sampleDevice].get ⟨0, by decide⟩).mac ∧
        r.connection_status = "online" ∧ r.last_seen_at = sampleTs) :=
  ⟨by decide, by decide, rfl,
    (receiveTelemetry_upsert_and_append [sampleDevice] "u1" (fun _ => Outcome.ok)
      sampleTs ⟨0, [], []⟩ (by decide) 0 (by decide) rfl).1⟩

/-- Claim C3: POST /api/telemetry answers 400 and stores nothing when the body
lacks a devices array or a user_id (including the falsy empty string);
a top-level crash answers 500; otherwise the reply is 200 with `received` the
array length and `stored` the number of devices whose upsert succeeded
(`successCount`), `0 ≤ stored ≤ received`, and one device's failure does not
prevent the remaining devices from being processed and written. -/
theorem receiveTelemetry_error_handling
    (devs : List DeviceInput) (uid : String) (env : Nat → Outcome)
    (ts : Timestamp) (db : DB) :
    (receiveTelemetry true env ts ⟨some devs, some uid⟩ db = (db, .serverError) ∧
      TelemetryResponse.status .serverError = 500) ∧
    (receiveTelemetry false env ts ⟨none, some uid⟩ db
        = (db, .badRequest "Invalid payload: devices array required") ∧
      TelemetryResponse.status
        (.badRequest "Invalid payload: devices array required") = 400) ∧
    receiveTelemetry false env ts ⟨some devs, none⟩ db
      = (db, .badRequest "Invalid payload: user_id required") ∧
    receiveTelemetry false env ts ⟨some devs, some ""⟩ db
      = (db, .badRequest "Invalid payload: user_id required") ∧
    (uid ≠ "" →
      (receiveTelemetry false env ts ⟨some devs, some uid⟩ db).2
          = .ok devs.length (storedCount env 0 devs) ∧
        TelemetryResponse.status (.ok devs.length (storedCount env 0 devs)) = 200 ∧
        storedCount env 0 devs ≤ devs.length ∧
        ∀ (j : Nat) (hj : j < devs.length), env j ≠ Outcome.fail →
          ∃ r ∈ (receiveTelemetry false env ts ⟨some devs, some uid⟩ db).1.devices,
            r.mac_address = (devs.get ⟨j, hj⟩).mac ∧
              r.connection_status = "online" ∧ r.last_seen_at = ts) := by
  refine ⟨⟨rfl, rfl⟩, ⟨rfl, rfl⟩, rfl, by simp [receiveTelemetry], fun huid => ?_⟩
  simp only [receiveTelemetry_valid devs uid env ts db huid]
  refine ⟨?_, rfl, storedCount_le_length env 0 devs, ?_⟩
  · rw [processDevices_count uid ts env devs db 0]
  · intro j hj hjf
    obtain ⟨n, hrow, _⟩ :=
      processDevices_device_write uid ts env devs db 0 j hj (by simpa using hjf)
    obtain ⟨r, hr, hm, _, hc, hl⟩ := hrow
    exact ⟨r, hr, hm, hc, hl⟩

/-- Claim C3, concrete instantiation at a one-device request. -/
theorem receiveTelemetry_error_handling_witness :
    ("u1" : String) ≠ "" ∧
    (receiveTelemetry false (fun _ => Outcome.ok) sampleTs
        ⟨some [sampleDevice], some "u1"⟩ ⟨0, [], []⟩).2
      = .ok 1 (storedCount (fun _ => Outcome.ok) 0 [sampleDevice]) :=
  ⟨by decide,
    ((receiveTelemetry_error_handling [sampleDevice] "u1" (fun _ => Outcome.ok)
      sampleTs ⟨0, [], []⟩).2.2.2.2 (by decide)).1⟩

/-- Claim C4: the devices table keeps at most one row per `mac_address`:
ingesting any devices array (repeated MACs included) preserves distinctness of
the `mac_address` column, so no MAC ever gets a second row, while the
telemetry_data table only grows by appending — one new row per successfully
processed device when every device's calls succeed. -/
theorem devices_table_unique_mac
    (devs : List DeviceInput) (uid : String) (env : Nat → Outcome)
    (ts : Timestamp) (db : DB) :
    ((macsOf db.devices).Nodup →
      (macsOf (receiveTelemetry false env ts ⟨some devs, some uid⟩ db).1.devices).Nodup) ∧
    ((macsOf db.devices).Nodup →
      ∀ m : String,
        (macsOf (receiveTelemetry false env ts ⟨some devs, some uid⟩ db).1.devices).count m
          ≤ 1) ∧
    (∃ l, (receiveTelemetry false env ts ⟨some devs, some uid⟩ db).1.telemetry
        = db.telemetry ++ l) ∧
    (uid ≠ "" → (∀ i, env i = Outcome.ok) →
      ∃ l, (receiveTelemetry false env ts ⟨some devs, some uid⟩ db).1.telemetry
          = db.telemetry ++ l ∧ l.length = devs.length) := by
  by_cases huid : uid = ""
  · subst huid
    have hred : receiveTelemetry false env ts ⟨some devs, some ""⟩ db
        = (db, .badRequest "Invalid payload: user_id required") := by
      simp [receiveTelemetry]
    simp only [hred]
    exact ⟨fun h => h, fun h m => List.nodup_iff_count_le_one.mp h m,
      ⟨[], (List.append_nil _).symm⟩, fun hu _ => absurd rfl hu⟩
  · simp only [receiveTelemetry_valid devs uid env ts db huid]
    refine ⟨fun h => processDevices_nodup uid ts env devs db 0 h,
      fun h m => List.nodup_iff_count_le_one.mp
        (processDevices_nodup uid ts env devs db 0 h) m, ?_, fun _ hall => ?_⟩
    · obtain ⟨l, hl, _, _⟩ := processDevices_telemetry_spec uid ts env devs db 0
      exact ⟨l, hl⟩
    · obtain ⟨l, hl, hlen, _⟩ := processDevices_telemetry_spec uid ts env devs db 0
      exact ⟨l, hl, by rw [hlen, okCount_all_ok env hall 0 devs]⟩

/-- Claim C4, concrete instantiation: the same MAC ingested twice in one
request yields a devices table without duplicate MACs and two appended
telemetry rows. -/
theorem devices_table_unique_mac_witness :
    (macsOf (⟨0, [], []⟩ : DB).devices).Nodup ∧ ("u1" : String) ≠ "" ∧
    (macsOf (receiveTelemetry false (fun _ => Outcome.ok) sampleTs
        ⟨some [sampleDevice, sampleDevice], some "u1"⟩ ⟨0, [], []⟩).1.devices).Nodup ∧
    (∃ l, (receiveTelemetry false (fun _ => Outcome.ok) sampleTs
          ⟨some [sampleDevice, sampleDevice], some "u1"⟩ ⟨0, [], []⟩).1.telemetry
        = (⟨0, [], []⟩ : DB).telemetry ++ l ∧ l.length = [sampleDevice, sampleDevice].length) :=
  ⟨by decide, by decide,
    (devices_table_unique_mac [sampleDevice, sampleDevice] "u1" (fun _ => Outcome.ok)
      sampleTs ⟨0, [], []⟩).1 (by decide),
    (devices_table_unique_mac [sampleDevice, sampleDevice] "u1" (fun _ => Outcome.ok)
      sampleTs ⟨0, [], []⟩).2.2.2 (by decide) (fun _ => rfl)⟩

/-! ## Helper lemmas on the hourly-patterns buckets -/

theorem bucketsGet_cons (kt k : String × Nat) (w : Int)
    (m : List ((String × Nat) × Int)) :
    (bucketsGet ((kt, w) :: m) k).getD 0
      = if kt = k then w else (bucketsGet m k).getD 0 := by
  unfold bucketsGet
  by_cases h : kt = k
  · simp [List.find?_cons, h]
  · simp [List.find?_cons, h]

theorem buildBuckets_lookup (k : String × Nat) :
    ∀ (rows : List TelemetryRow) (m : List ((String × Nat) × Int)),
      (bucketsGet (rows.foldl (fun m t =>
            ((rowDay t, rowHour t),
              (bucketsGet m (rowDay t, rowHour t)).getD 0 + (t.rx_bytes + t.tx_bytes)) :: m)
          m) k).getD 0
        = (bucketsGet m k).getD 0
          + ((rows.filter (fun t => decide ((rowDay t, rowHour t) = k))).map
              (fun t => t.rx_bytes + t.tx_bytes)).sum := by
  intro rows
  induction rows with
  | nil => intro m; simp
  | cons t rest ih =>
    intro m
    rw [List.foldl_cons, ih, bucketsGet_cons]
    by_cases h : (rowDay t, rowHour t) = k
    · rw [if_pos h, List.filter_cons, if_pos (by simpa using h), List.map_cons,
        List.sum_cons, h]
      omega
    · rw [if_neg h, List.filter_cons, if_neg (by simpa using h)]

theorem dayNames_getD_inj :
    ∀ a b : Fin 7, dayNames.getD a.val "" = dayNames.getD b.val "" → a = b := by
  decide

theorem rowDay_eq_iff (t : TelemetryRow) (d : Nat) (hd : d < 7) :
    rowDay t = dayNames.getD d "" ↔ (t.timestamp.day.val + 6) % 7 = d := by
  constructor
  · intro h
    have h1 : (⟨(t.timestamp.day.val + 6) % 7, Nat.mod_lt _ (by norm_num)⟩ : Fin 7)
        = ⟨d, hd⟩ := dayNames_getD_inj _ _ (by simpa [rowDay] using h)
    simpa using congrArg Fin.val h1
  · intro h
    simp [rowDay, h]

/-- Claim C8: GET /api/statistics/hourly-patterns returns exactly 168 entries
in the fixed order Mon‥Sun crossed with hours 0‥23, where the entry of a
(day, hour) pair carries the sum of `rx_bytes + tx_bytes` over the telemetry
rows of the selected range that fall on that weekday and hour, divided by
1024·1024 (and hence `0` for a bucket with no telemetry). -/
theorem hourlyPatterns_bucket_grid (now : Int) (range : Option String)
    (rows : List TelemetryRow) :
    (hourlyPatterns now range rows).length = 168 ∧
    hourlyPatterns now range rows
      = (List.range 7).flatMap (fun d =>
          (List.range 24).map (fun h =>
            { hour := h
              day := dayNames.getD d ""
              value := (((((rows.filter (fun t =>
                      decide (parseRangeToStart now range ≤ t.timestamp.time))).filter
                    (fun t => decide ((t.timestamp.day.val + 6) % 7 = d ∧
                      t.timestamp.hours.val = h))).map
                  (fun t => t.rx_bytes + t.tx_bytes)).sum : Int) : ℚ) / (1024 * 1024) })) := by
  have h2 : hourlyPatterns now range rows
      = (List.range 7).flatMap (fun d =>
          (List.range 24).map (fun h =>
            { hour := h
              day := dayNames.getD d ""
              value := (((((rows.filter (fun t =>
                      decide (parseRangeToStart now range ≤ t.timestamp.time))).filter
                    (fun t => decide ((t.timestamp.day.val + 6) % 7 = d ∧
                      t.timestamp.hours.val = h))).map
                  (fun t => t.rx_bytes + t.tx_bytes)).sum : Int) : ℚ) / (1024 * 1024) })) := by
    unfold hourlyPatterns
    have hdays : dayNames = (List.range 7).map (fun d => dayNames.getD d "") := by decide
    conv_lhs => rw [hdays]
    rw [List.flatMap_map]
    apply List.flatMap_congr
    intro d hd
    have hd7 : d < 7 := List.mem_range.mp hd
    apply List.map_congr_left
    intro h hh
    have hfilter :
        (rows.filter (fun t =>
            decide (parseRangeToStart now range ≤ t.timestamp.time))).filter
          (fun t => decide ((rowDay t, rowHour t) = (dayNames.getD d "", h)))
        = (rows.filter (fun t =>
            decide (parseRangeToStart now range ≤ t.timestamp.time))).filter
          (fun t => decide ((t.timestamp.day.val + 6) % 7 = d ∧
            t.timestamp.hours.val = h)) := by
      apply List.filter_congr
      intro t _
      apply decide_eq_decide.mpr
      rw [Prod.ext_iff]
      exact and_congr (rowDay_eq_iff t d hd7) Iff.rfl
    congr 1
    unfold buildBuckets
    rw [buildBuckets_lookup, hfilter]
    norm_num [bucketsGet]
  refine ⟨?_, h2⟩
  rw [h2, List.length_flatMap]
  simp only [Function.comp_def, List.length_map, List.length_range]
  decide

end EdgeNet
